import Mathlib

/-!
# Verification of the Noah-Mina KYC registry core

Shallow embedding of the Noah-Mina SDK core
(`packages/noah-mina-sdk/src/attester/NoahAttester.ts`: the `NoahAttester`
document validator, the `NoahKYCRegistry` zkApp methods, and the `NoahSDK`
wrapper; `credentials/NoahCredential.ts`: the presentation specs and
`computeCommitment`), together with theorems settling the spec claims.

Field elements and UInt64 counters are modelled as `Nat` (the values the
program handles — dates, block heights, counters — are far below both
moduli, and the claims do not turn on overflow); public keys are modelled
as `Nat` with `0` standing for the empty key `PublicKey.empty`.
-/

namespace NoahMina

/-- Field elements (Poseidon outputs, commitments). `0` is `Field(0)`. -/
abbrev F := Nat

/-- Public keys; `0` stands for `PublicKey.empty`, the default on-chain value. -/
abbrev Pub := Nat

/-- `KYCRecord` struct from `NoahKYCRegistry` (contracts section of
`NoahAttester.ts`): per-user entry of the off-chain Merkle map. -/
structure KYCRecord where
  commitment : F
  issuerHash : F
  registeredAt : Nat
  isActive : Bool
deriving DecidableEq, Repr

/-- `KYCRecord.empty()`: the all-zero default record. -/
def KYCRecord.empty : KYCRecord :=
  { commitment := 0, issuerHash := 0, registeredAt := 0, isActive := false }

/-- Pending off-chain action, as appended by `offchainState.fields.*.update`:
either a map update `{from, to}` for a user's record, or a counter update
`{from, to}` for `totalRegistrations`. The `from` component is the `Option`
returned by `get` at append time (compare-and-set precondition). -/
inductive PendingAction where
  | update (key : Pub) (fromVal : Option KYCRecord) (toVal : KYCRecord)
  | increment (fromVal : Option Nat) (toVal : Nat)
deriving DecidableEq, Repr

/-- The settled off-chain state: sparse map of records plus the
`totalRegistrations` counter (`none` = never written). -/
structure OffchainMaps where
  kycRecords : Pub → Option KYCRecord
  totalRegistrations : Option Nat

/-- Full registry state: on-chain admin key, settled off-chain state,
the pending action log, and the current ledger height
(`network.blockchainLength`). -/
structure RegistryState where
  admin : Pub
  settled : OffchainMaps
  pending : List PendingAction
  blockchainLength : Nat

/-- Error taxonomy of the registry methods (spec section 7). -/
inductive RegistryError where
  | ZeroCommitmentError
  | AuthorizationError
  | NotActiveError
  | AlreadySetError
  | SettlementConflictError
deriving DecidableEq, Repr

/-- `NoahKYCRegistry.setAdmin(admin)`: the source reads the current admin
via `getAndRequireEquals()` and then unconditionally overwrites it with
`this.admin.set(admin)` — there is no emptiness check and no failure path. -/
def setAdmin (st : RegistryState) (admin : Pub) : Except RegistryError RegistryState :=
  .ok { st with admin := admin }

/-- `NoahKYCRegistry.registerKYC(commitment, issuerHash)`: asserts both
arguments non-zero, reads the sender's existing record and the counter from
the settled off-chain state, and appends one map-update action (new record
with `registeredAt` = current ledger height, `isActive` = true) and one
counter-update action (incremented only when the prior commitment is zero). -/
def registerKYC (st : RegistryState) (sender : Pub) (commitment issuerHash : F) :
    Except RegistryError RegistryState :=
  if commitment = 0 then .error .ZeroCommitmentError
  else if issuerHash = 0 then .error .ZeroCommitmentError
  else
    let existingOption := st.settled.kycRecords sender
    let existing := existingOption.getD KYCRecord.empty
    let newRecord : KYCRecord :=
      { commitment := commitment, issuerHash := issuerHash,
        registeredAt := st.blockchainLength, isActive := true }
    let totalOption := st.settled.totalRegistrations
    let total := totalOption.getD 0
    let isNew := existing.commitment = 0
    let newTotal := if isNew then total + 1 else total
    .ok { st with
          pending := st.pending ++
            [.update sender existingOption newRecord,
             .increment totalOption newTotal] }

/-- `NoahKYCRegistry.revokeKYC(user)`: asserts the sender equals the stored
admin, reads the target's record, asserts `isActive`, and appends a
map-update action to the same record with `isActive` set to false. -/
def revokeKYC (st : RegistryState) (sender user : Pub) :
    Except RegistryError RegistryState :=
  if sender ≠ st.admin then .error .AuthorizationError
  else
    let existingOption := st.settled.kycRecords user
    let existing := existingOption.getD KYCRecord.empty
    if existing.isActive = false then .error .NotActiveError
    else
      let revokedRecord : KYCRecord :=
        { commitment := existing.commitment, issuerHash := existing.issuerHash,
          registeredAt := existing.registeredAt, isActive := false }
      .ok { st with pending := st.pending ++ [.update user existingOption revokedRecord] }

/-- `NoahKYCRegistry.transferOwnership(newAdmin)`: sender must equal the
stored admin; on success the admin key is replaced. -/
def transferOwnership (st : RegistryState) (sender newAdmin : Pub) :
    Except RegistryError RegistryState :=
  if sender ≠ st.admin then .error .AuthorizationError
  else .ok { st with admin := newAdmin }

/-- Modelled from the spec: applying one pending action during settlement
(the fold performed by the external o1js `OffchainState` settlement proof,
which is not part of this repository). An action applies only when its
`from` precondition still matches the current value; a mismatch is the
spec's `SettlementConflictError`. -/
def applyAction (m : OffchainMaps) (a : PendingAction) :
    Except RegistryError OffchainMaps :=
  match a with
  | .update key fromVal toVal =>
      if m.kycRecords key = fromVal then
        .ok { m with kycRecords := fun k => if k = key then some toVal else m.kycRecords k }
      else .error .SettlementConflictError
  | .increment fromVal toVal =>
      if m.totalRegistrations = fromVal then
        .ok { m with totalRegistrations := some toVal }
      else .error .SettlementConflictError

/-- Modelled from the spec: folding the pending action log, in append
order, over the settled state (spec section 4.6; the fold itself lives in
the external o1js settlement circuit). -/
def settleActions (m : OffchainMaps) : List PendingAction → Except RegistryError OffchainMaps
  | [] => .ok m
  | a :: rest =>
      match applyAction m a with
      | .ok m' => settleActions m' rest
      | .error e => .error e

/-- `NoahKYCRegistry.settle(proof)` / `NoahSDK.settleState()`: consume the
whole pending log and advance the settled state. -/
def settle (st : RegistryState) : Except RegistryError RegistryState :=
  match settleActions st.settled st.pending with
  | .ok m => .ok { st with settled := m, pending := [] }
  | .error e => .error e

/-- `NoahSDK.getKYCStatus(user)` (happy path): read the user's record from
the settled off-chain state; a record whose commitment is zero means "no
KYC record" and yields `none`. -/
def getKYCStatus (st : RegistryState) (user : Pub) : Option KYCRecord :=
  let record := (st.settled.kycRecords user).getD KYCRecord.empty
  if record.commitment = 0 then none else some record

/-- Internal failures that the underlying off-chain state fetch inside
`NoahSDK.getKYCStatus` can raise (network error, uninitialized state, ...). -/
inductive InternalFailure where
  | fetchFailed
deriving DecidableEq, Repr

/-- `NoahSDK.getKYCStatus(user)` with its try/catch: the body reads the
record and maps a zero commitment to `null`; the surrounding
`catch { return null; }` maps every internal failure to `null` as well.
The `fetch` argument is the outcome of the underlying
`offchainState.fields.kycRecords.get(user)` call. -/
def getKYCStatusChecked (fetch : Except InternalFailure (Option KYCRecord)) :
    Option KYCRecord :=
  match fetch with
  | .error _ => none
  | .ok recordOption =>
      let record := recordOption.getD KYCRecord.empty
      if record.commitment = 0 then none else some record

/-- `TransactionResult` from `NoahSDK`: `{ success, hash?, error? }`
(the error message is modelled by the registry error value itself). -/
structure TransactionResult where
  success : Bool
  hash : Option Nat
  error : Option RegistryError
deriving DecidableEq, Repr

/-- `NoahSDK.registerKYC(commitment, issuerHash)`: builds and sends the
transaction inside a try/catch; a thrown contract error becomes
`{ success: false, error }` (state unchanged), success becomes
`{ success: true, hash }` with the new pending action appended. -/
def sdkRegisterKYC (st : RegistryState) (sender : Pub) (commitment issuerHash : F) :
    TransactionResult × RegistryState :=
  match registerKYC st sender commitment issuerHash with
  | .ok st' => ({ success := true, hash := some 1, error := none }, st')
  | .error e => ({ success := false, hash := none, error := some e }, st)

/-- `NoahSDK.revokeKYC(user)`: same try/catch shape as the register
wrapper — a thrown contract error becomes `{ success: false, error }`
with the state unchanged. -/
def sdkRevokeKYC (st : RegistryState) (sender user : Pub) :
    TransactionResult × RegistryState :=
  match revokeKYC st sender user with
  | .ok st' => ({ success := true, hash := some 1, error := none }, st')
  | .error e => ({ success := false, hash := none, error := some e }, st)

/-- `NoahSDK.settleState()`: creates the settlement proof and calls the
contract's `settle` inside a try/catch; any error (for example a
settlement conflict) becomes `{ success: false, error }` with the state
unchanged. -/
def sdkSettleState (st : RegistryState) : TransactionResult × RegistryState :=
  match settle st with
  | .ok st' => ({ success := true, hash := some 1, error := none }, st')
  | .error e => ({ success := false, hash := none, error := some e }, st)

/-- `NoahSDK.deploy()`: the deployment transaction itself runs in the
external proving/network layer, so its outcome is the `attempt`
argument; the wrapper's try/catch maps a thrown error to
`{ success: false, error }` and success to `{ success: true }` (the
source returns no hash here). -/
def sdkDeploy (attempt : Except RegistryError Unit) : TransactionResult :=
  match attempt with
  | .ok _ => { success := true, hash := none, error := none }
  | .error e => { success := false, hash := none, error := some e }

-- ============================================================
-- Attester: document validation (`NoahAttester.validateDocument`)
-- ============================================================

/-- `IdentityDocument` from `NoahAttester.ts`: raw identity data
extracted from a document. Dates are `number`s in YYYYMMDD format,
modelled as `Nat`. -/
structure IdentityDocument where
  fullName : String
  dateOfBirth : Nat
  nationality : String
  documentType : String
  expiresAt : Nat
deriving DecidableEq, Repr

/-- Validation failures thrown by `validateDocument` (the spec's
`ValidationError` taxonomy, one constructor per thrown message). -/
inductive ValidationIssue where
  | invalidFullName
  | invalidDateOfBirth
  | invalidNationality
  | invalidDocumentType
  | invalidExpiry
deriving DecidableEq, Repr

/-- Length of the decimal representation of a natural number — the JS
`String(n).length` for a non-negative integer `n` (so `decLen 0 = 1`). -/
def decLen (n : Nat) : Nat := (Nat.toDigits 10 n).length

/-- The allowed document types (`validTypes` in `validateDocument`). -/
def validTypes : List String := ["passport", "national_id", "drivers_license"]

/-- `NoahAttester.validateDocument(document)`, check for check in source
order: fullName length in [2,128] (the JS `!document.fullName` guard is
subsumed: an empty string has length 0 < 2); `String(dateOfBirth)` of
length exactly 8; nationality length in [2,64]; documentType among
`validTypes`; `String(expiresAt)` of length exactly 8. -/
def validateDocument (d : IdentityDocument) : Except ValidationIssue Unit :=
  if d.fullName.length < 2 then .error .invalidFullName
  else if d.fullName.length > 128 then .error .invalidFullName
  else if decLen d.dateOfBirth ≠ 8 then .error .invalidDateOfBirth
  else if d.nationality.length < 2 then .error .invalidNationality
  else if d.nationality.length > 64 then .error .invalidNationality
  else if ¬ validTypes.contains d.documentType then .error .invalidDocumentType
  else if decLen d.expiresAt ≠ 8 then .error .invalidExpiry
  else .ok ()

/-- `NoahAttester.issueCredential` succeeds exactly when validation does
(the signing step never fails); this predicate is what the claims about
`issue` observe. -/
def issueSucceeds (d : IdentityDocument) : Bool :=
  match validateDocument d with
  | .ok _ => true
  | .error _ => false

-- ============================================================
-- Credential presentation specs (`NoahCredential.ts`)
-- ============================================================

/-- Numeric operations over credential fields and claims, as used by the
`AgeVerificationSpec` assertion tree in `NoahCredential.ts`
(`Operation.property(kyc, ...)`, the two `Claim(UInt64)` inputs, and
`Operation.add`). -/
inductive NumExpr where
  | propDateOfBirth
  | propExpiresAt
  | claimCurrentDate
  | claimMinAgeDelta
  | add (a b : NumExpr)
deriving DecidableEq, Repr

/-- A boolean assertion node (`Operation.lessThanEq`). -/
inductive SpecAssertion where
  | lessThanEq (a b : NumExpr)
deriving DecidableEq, Repr

/-- The credential data fields a presentation reads, together with the
issuer hash exposed by `Operation.issuer(kyc)`. -/
structure CredentialView where
  dateOfBirth : Nat
  expiresAt : Nat
  issuerHash : F
deriving DecidableEq, Repr

/-- The public claims of `AgeVerificationSpec`:
`currentDate : Claim(UInt64)` and `minAgeDelta : Claim(UInt64)`. -/
structure AgeClaims where
  currentDate : Nat
  minAgeDelta : Nat
deriving DecidableEq, Repr

/-- Modelled from the spec: evaluation of a numeric operation node (the
semantics of `Operation.*` live in the external mina-attestations
library; values are dates and year deltas, far below the UInt64 bound). -/
def evalNum (cred : CredentialView) (cl : AgeClaims) : NumExpr → Nat
  | .propDateOfBirth => cred.dateOfBirth
  | .propExpiresAt => cred.expiresAt
  | .claimCurrentDate => cl.currentDate
  | .claimMinAgeDelta => cl.minAgeDelta
  | .add a b => evalNum cred cl a + evalNum cred cl b

/-- Modelled from the spec: evaluation of one assertion node. -/
def evalAssertion (cred : CredentialView) (cl : AgeClaims) : SpecAssertion → Bool
  | .lessThanEq a b => evalNum cred cl a ≤ evalNum cred cl b

/-- The assertion list of `AgeVerificationSpec`, exactly as written in
`NoahCredential.ts`: `dateOfBirth + minAgeDelta ≤ currentDate` and
`currentDate ≤ expiresAt`. -/
def ageVerificationAssertions : List SpecAssertion :=
  [ .lessThanEq (.add .propDateOfBirth .claimMinAgeDelta) .claimCurrentDate,
    .lessThanEq .claimCurrentDate .propExpiresAt ]

/-- All assertions of the age spec hold on the given credential/claims. -/
def ageSpecSatisfied (cred : CredentialView) (cl : AgeClaims) : Bool :=
  ageVerificationAssertions.all (evalAssertion cred cl)

/-- Proof-engine failure (spec section 4.4 / 7). -/
inductive ProofError where
  | ProofGenerationError
deriving DecidableEq, Repr

/-- Modelled from the spec: `Presentation.create` for the age spec (the
proof engine is the external mina-attestations library): it fails with
`ProofGenerationError` exactly when the credential fails an asserted
predicate, and otherwise yields the declared output claim — the issuer
hash (`Operation.issuer(kyc)`). -/
def createAgePresentation (cred : CredentialView) (cl : AgeClaims) :
    Except ProofError F :=
  if ageSpecSatisfied cred cl then .ok cred.issuerHash
  else .error .ProofGenerationError

-- ============================================================
-- Commitment function (`computeCommitment` in `NoahCredential.ts`)
-- ============================================================

/-- Modelled from the spec: the Poseidon hash over a list of field
elements (the permutation itself is the external o1js primitive; what
matters for the claims is that it is a pure function of its input list).
A concrete executable stand-in over the Pallas base-field-sized modulus. -/
def poseidonHash (xs : List F) : F :=
  xs.foldl (fun acc x => (acc * 1000003 + x + 17) % (2 ^ 254 + 45560315531419706090280762371685220353)) 7

/-- `computeCommitment(fullNameHash, dateOfBirth, nationalityHash)` from
`NoahCredential.ts`: the Poseidon hash of the three field elements, in
that order (`dateOfBirth.value` is the UInt64's underlying field value). -/
def computeCommitment (fullNameHash : F) (dateOfBirth : Nat) (nationalityHash : F) : F :=
  poseidonHash [fullNameHash, dateOfBirth, nationalityHash]

-- ============================================================
-- Credential hydration (`NoahSDK.hydrateCredential` / `safeUInt64`)
-- ============================================================

/-- A JavaScript number as `safeUInt64` observes it: NaN, a signed
infinity, or a finite value. Finite values are modelled as exact
rationals; float64 rounding is ignored, which never affects whether a
string converts to NaN (the classification the malformed set depends
on) nor the integrality/sign checks of `UInt64.from` on credential-sized
inputs. -/
inductive JSNum where
  | nan
  | inf (neg : Bool)
  | val (q : ℚ)
deriving DecidableEq, Repr

/-- A dynamically-typed JavaScript value, as the frontend may hand a
credential field to `hydrateCredential` after a JSON round-trip.
`objVal v` is an object with a `.value` property holding `v`; `objNoVal`
is any other object. -/
inductive JSVal where
  | jsNull
  | jsUndefined
  | number (x : JSNum)
  | strVal (s : String)
  | objVal (v : JSVal)
  | objNoVal
deriving DecidableEq, Repr

/-- The error thrown by o1js `UInt64.from` on a negative, fractional,
infinite, or out-of-range input. -/
inductive HydrationError where
  | uint64RangeError
deriving DecidableEq, Repr

/-- The code points the JS ToNumber conversion trims: WhiteSpace
(TAB, VT, FF, SP, NBSP, ZWNBSP and the Unicode Zs class) and the line
terminators LF, CR, LS, PS. -/
def isStrWhite (c : Char) : Bool :=
  [9, 10, 11, 12, 13, 32, 0xA0, 0x1680, 0x2028, 0x2029,
   0x202F, 0x205F, 0x3000, 0xFEFF].contains c.toNat
  || (0x2000 ≤ c.toNat && c.toNat ≤ 0x200A)

/-- Value of a list of decimal digit characters. -/
def digitsToNat (ds : List Char) : Nat :=
  ds.foldl (fun n c => n * 10 + (c.toNat - 48)) 0

/-- Value of a hexadecimal digit character, if it is one. -/
def hexDigitVal (c : Char) : Option Nat :=
  if c.isDigit then some (c.toNat - 48)
  else if 97 ≤ c.toNat && c.toNat ≤ 102 then some (c.toNat - 87)
  else if 65 ≤ c.toNat && c.toNat ≤ 70 then some (c.toNat - 55)
  else none

/-- Value of a digit list in the given radix; `none` when a character is
not a digit of that radix. -/
def radixVal (radix : Nat) (ds : List Char) : Option Nat :=
  ds.foldlM (fun n c =>
    match hexDigitVal c with
    | some d => if d < radix then some (n * radix + d) else none
    | none => none) 0

/-- A non-decimal integer literal (after `0x`/`0o`/`0b`): all remaining
characters must be digits of the radix and at least one must be present
(`Number("0x")` is NaN). -/
def parseRadix (radix : Nat) (ds : List Char) : JSNum :=
  if ds = [] then .nan
  else
    match radixVal radix ds with
    | some n => .val n
    | none => .nan

/-- The optional exponent part of a decimal literal: either nothing
remains, or `e`/`E`, an optional sign, and at least one digit consuming
the rest of the string. -/
def parseExpPart (q : ℚ) (cs : List Char) : Option ℚ :=
  match cs with
  | [] => some q
  | c :: rest =>
      if c = 'e' || c = 'E' then
        let (pos, rest2) :=
          match rest with
          | '+' :: r => (true, r)
          | '-' :: r => (false, r)
          | r => (true, r)
        let ds := rest2.takeWhile Char.isDigit
        let rest3 := rest2.dropWhile Char.isDigit
        if ds = [] || rest3 ≠ [] then none
        else if pos then some (q * 10 ^ digitsToNat ds)
        else some (q / 10 ^ digitsToNat ds)
      else none

/-- An unsigned decimal literal: `digits [. digits?]? exp?` or
`. digits exp?`; at least one digit must appear around the point. -/
def parseUnsignedDec (cs : List Char) : Option ℚ :=
  let intPart := cs.takeWhile Char.isDigit
  let rest := cs.dropWhile Char.isDigit
  match rest with
  | '.' :: rest2 =>
      let fracPart := rest2.takeWhile Char.isDigit
      let rest3 := rest2.dropWhile Char.isDigit
      if intPart = [] && fracPart = [] then none
      else
        parseExpPart
          ((digitsToNat intPart : ℚ) + (digitsToNat fracPart : ℚ) / 10 ^ fracPart.length)
          rest3
  | _ =>
      if intPart = [] then none
      else parseExpPart (digitsToNat intPart : ℚ) rest

/-- A signed decimal literal or `Infinity` (a sign is only allowed here,
not before a radix prefix, matching JS). -/
def parseSignedDec (cs : List Char) : JSNum :=
  let (neg, rest) :=
    match cs with
    | '+' :: r => (false, r)
    | '-' :: r => (true, r)
    | r => (false, r)
  if rest = "Infinity".data then .inf neg
  else
    match parseUnsignedDec rest with
    | some q => .val (if neg then -q else q)
    | none => .nan

/-- The JS `Number(string)` conversion (ToNumber on a string): trim
whitespace; empty → +0; `0x`/`0X`, `0o`/`0O`, `0b`/`0B` radix literals
(no sign, no exponent); otherwise an optionally signed decimal literal
or `Infinity`; anything else is NaN. -/
def jsStringToNum (s : String) : JSNum :=
  let cs :=
    ((s.data.dropWhile (fun c => isStrWhite c)).reverse.dropWhile
      (fun c => isStrWhite c)).reverse
  match cs with
  | [] => .val 0
  | '0' :: c2 :: rest =>
      if c2 = 'x' || c2 = 'X' then parseRadix 16 rest
      else if c2 = 'o' || c2 = 'O' then parseRadix 8 rest
      else if c2 = 'b' || c2 = 'B' then parseRadix 2 rest
      else parseSignedDec cs
  | _ => parseSignedDec cs

/-- o1js `UInt64.from` on a non-NaN JS number: succeeds only on a
non-negative integral value below `2 ^ 64`; negative, fractional,
infinite or too-large values throw. -/
def uint64From (x : JSNum) : Except HydrationError Nat :=
  match x with
  | .nan => .error .uint64RangeError
  | .inf _ => .error .uint64RangeError
  | .val q =>
      if 0 ≤ q ∧ q.den = 1 ∧ q.num < 2 ^ 64 then .ok q.num.toNat
      else .error .uint64RangeError

/-- `safeUInt64(val)` from `NoahSDK.hydrateCredential`: unwrap a `.value`
property once (only when it is not `undefined`); map `null`/`undefined`
to `UInt64.from(0)`; a number `v` to `UInt64.from(isNaN(v) ? 0 : v)`; a
string to `UInt64.from(Number(v))` when that is not NaN and to
`UInt64.from(0)` otherwise; any remaining object to the final
`return UInt64.from(0)`. The `Except` carries the throw of
`UInt64.from` on negative/fractional/infinite parsed values. -/
def safeUInt64 (val : JSVal) : Except HydrationError Nat :=
  let v := match val with
    | .objVal .jsUndefined => JSVal.objVal .jsUndefined
    | .objVal inner => inner
    | other => other
  match v with
  | .jsNull => .ok 0
  | .jsUndefined => .ok 0
  | .number x =>
      match x with
      | .nan => .ok 0
      | other => uint64From other
  | .strVal s =>
      match jsStringToNum s with
      | .nan => .ok 0
      | other => uint64From other
  | .objVal _ => .ok 0
  | .objNoVal => .ok 0

/-- A raw credential's numeric fields as they reach `hydrateCredential`. -/
structure RawCredentialData where
  dateOfBirth : JSVal
  expiresAt : JSVal
deriving DecidableEq, Repr

/-- The numeric fields of the hydrated credential: `hydrateCredential`
rebuilds `dateOfBirth` then `expiresAt` with `safeUInt64`, propagating a
`UInt64.from` throw. -/
def hydrateNumericFields (raw : RawCredentialData) :
    Except HydrationError (Nat × Nat) :=
  match safeUInt64 raw.dateOfBirth with
  | .error e => .error e
  | .ok d =>
      match safeUInt64 raw.expiresAt with
      | .error e => .error e
      | .ok x => .ok (d, x)

/-- A value is malformed in the sense of the C10 claim: `null`,
`undefined`, a NaN number, or a string whose `Number(...)` conversion is
NaN. -/
def malformedVal : JSVal → Prop
  | .jsNull => True
  | .jsUndefined => True
  | .number x => x = .nan
  | .strVal s => jsStringToNum s = .nan
  | .objVal _ => False
  | .objNoVal => False

instance (v : JSVal) : Decidable (malformedVal v) :=
  match v with
  | .jsNull => isTrue trivial
  | .jsUndefined => isTrue trivial
  | .number x => inferInstanceAs (Decidable (x = .nan))
  | .strVal s => inferInstanceAs (Decidable (jsStringToNum s = .nan))
  | .objVal _ => isFalse (fun h => h)
  | .objNoVal => isFalse (fun h => h)

-- ============================================================
-- Concrete states and documents used by witnesses
-- ============================================================

/-- Off-chain state with no records and an untouched counter. -/
def emptyMaps : OffchainMaps :=
  { kycRecords := fun _ => none, totalRegistrations := none }

/-- A registry whose admin has already been set to key `5`, with a clean
pending log. -/
def baseState : RegistryState :=
  { admin := 5, settled := emptyMaps, pending := [], blockchainLength := 42 }

/-- An active record as produced by a successful registration. -/
def recA : KYCRecord :=
  { commitment := 11, issuerHash := 22, registeredAt := 42, isActive := true }

/-- A registry in which user `3` holds the active record `recA`. -/
def stRegistered : RegistryState :=
  { admin := 5,
    settled := { kycRecords := fun k => if k = 3 then some recA else none,
                 totalRegistrations := some 1 },
    pending := [], blockchainLength := 50 }

/-- A registry whose pending log holds a counter update whose
compare-and-set precondition (`some 5`) no longer matches the settled
counter (`none`), so settlement fails with a conflict. -/
def stConflict : RegistryState :=
  { baseState with pending := [.increment (some 5) 6] }

/-- A document that passes every validation check. -/
def docGood : IdentityDocument :=
  { fullName := "John Doe", dateOfBirth := 20240101, nationality := "US",
    documentType := "passport", expiresAt := 20300101 }

/-- The same document with a 6-digit date of birth. -/
def docSixDigitDOB : IdentityDocument :=
  { docGood with dateOfBirth := 240101 }

-- ============================================================
-- Claim theorems
-- ============================================================

/-- C1: the claim says `setAdmin` succeeds only when the current admin is
the empty key and fails with `AlreadySetError` otherwise, leaving the
stored admin unchanged. The code contradicts this (and its own comment
"Only allow setting admin if it hasn't been set"): on a state whose admin
is the non-empty key `5`, `setAdmin 7` succeeds and overwrites the admin
with `7`. -/
theorem setAdmin_overwrites_nonempty_admin :
    baseState.admin = 5 ∧ baseState.admin ≠ 0 ∧
    ∃ st', setAdmin baseState 7 = .ok st' ∧ st'.admin = 7 :=
  ⟨rfl, by decide, ⟨_, rfl, rfl⟩⟩

/-- C8: `computeCommitment` is deterministic — it is a pure function of
the ordered inputs `(fullNameHash, dateOfBirth, nationalityHash)` with no
added randomness, so two holders with identical name hash, date of birth
and nationality hash obtain identical commitments. -/
theorem computeCommitment_deterministic
    (a₁ d₁ n₁ a₂ d₂ n₂ : Nat) (ha : a₁ = a₂) (hd : d₁ = d₂) (hn : n₁ = n₂) :
    computeCommitment a₁ d₁ n₁ = computeCommitment a₂ d₂ n₂ := by
  subst ha; subst hd; subst hn; rfl

/-- Witness for C8 at concrete identity data of two distinct holders that
happen to share (name hash, DOB, nationality hash). -/
theorem computeCommitment_deterministic_witness :
    computeCommitment 101 19900115 55 = computeCommitment 101 19900115 55 :=
  computeCommitment_deterministic 101 19900115 55 101 19900115 55 rfl rfl rfl

/-- C9 counterexample: the claim says query operations such as
`getKYCStatus` never map internal failures to a value indistinguishable
from a legitimate answer. But `getKYCStatus` wraps its body in
`catch { return null; }`: an internal fetch failure yields `none`, the
exact value returned for the legitimate "no KYC record" answer. -/
theorem getKYCStatus_conflates_failure_with_absence :
    getKYCStatusChecked (.error .fetchFailed) = getKYCStatusChecked (.ok none) ∧
    getKYCStatusChecked (.error .fetchFailed) = none :=
  ⟨rfl, rfl⟩

/-- C9 (amended): the mutating SDK operations — `registerKYC`,
`revokeKYC`, `settleState`, and `deploy` — report every error as an
explicit result value, `{ success := false, error }` carrying the thrown
error with the registry state unchanged; `getKYCStatus`, by contrast,
maps every internal failure to `none`, indistinguishable from the
"no record" answer. -/
theorem sdk_error_reporting :
    (∀ st sender c i e, registerKYC st sender c i = .error e →
      (sdkRegisterKYC st sender c i).1 =
        { success := false, hash := none, error := some e } ∧
      (sdkRegisterKYC st sender c i).2 = st) ∧
    (∀ st sender user e, revokeKYC st sender user = .error e →
      (sdkRevokeKYC st sender user).1 =
        { success := false, hash := none, error := some e } ∧
      (sdkRevokeKYC st sender user).2 = st) ∧
    (∀ st e, settle st = .error e →
      (sdkSettleState st).1 =
        { success := false, hash := none, error := some e } ∧
      (sdkSettleState st).2 = st) ∧
    (∀ e, sdkDeploy (.error e) =
      { success := false, hash := none, error := some e }) ∧
    (∀ f, getKYCStatusChecked (.error f) = none) := by
  refine ⟨?_, ?_, ?_, ?_, ?_⟩
  · intro st sender c i e h
    simp [sdkRegisterKYC, h]
  · intro st sender user e h
    simp [sdkRevokeKYC, h]
  · intro st e h
    simp [sdkSettleState, h]
  · intro e; rfl
  · intro f; rfl

/-- Witness for C9's amended theorem: a zero-commitment register, a
non-admin revoke, a conflicting settlement, and a failed deployment all
surface their error explicitly; a failed status fetch surfaces as
`none`. -/
theorem sdk_error_reporting_witness :
    (sdkRegisterKYC baseState 3 0 5).1 =
      { success := false, hash := none, error := some .ZeroCommitmentError } ∧
    (sdkRevokeKYC baseState 4 3).1 =
      { success := false, hash := none, error := some .AuthorizationError } ∧
    (sdkSettleState stConflict).1 =
      { success := false, hash := none, error := some .SettlementConflictError } ∧
    sdkDeploy (.error .AuthorizationError) =
      { success := false, hash := none, error := some .AuthorizationError } ∧
    getKYCStatusChecked (.error .fetchFailed) = none :=
  ⟨(sdk_error_reporting.1 baseState 3 0 5 .ZeroCommitmentError rfl).1,
   (sdk_error_reporting.2.1 baseState 4 3 .AuthorizationError rfl).1,
   (sdk_error_reporting.2.2.1 stConflict .SettlementConflictError rfl).1,
   sdk_error_reporting.2.2.2.1 .AuthorizationError,
   sdk_error_reporting.2.2.2.2 .fetchFailed⟩

/-- C10: `safeUInt64` coerces every malformed numeric field — `null`,
`undefined`, a NaN number, or a string whose `Number(...)` conversion is
NaN — to `0` without raising, and `hydrateCredential` therefore proceeds
with `dateOfBirth`/`expiresAt` = 0 instead of raising an error for a
malformed credential. -/
theorem safeUInt64_coerces_malformed :
    (∀ v, malformedVal v → safeUInt64 v = .ok 0) ∧
    (∀ raw : RawCredentialData, malformedVal raw.dateOfBirth →
      malformedVal raw.expiresAt → hydrateNumericFields raw = .ok (0, 0)) := by
  have h : ∀ v, malformedVal v → safeUInt64 v = .ok 0 := by
    intro v hv
    cases v with
    | jsNull => rfl
    | jsUndefined => rfl
    | number x =>
        have hx : x = .nan := hv
        subst hx
        rfl
    | strVal s =>
        have hs : jsStringToNum s = .nan := hv
        simp [safeUInt64, hs]
    | objVal v' => exact absurd hv (fun hf => hf)
    | objNoVal => exact absurd hv (fun hf => hf)
  refine ⟨h, ?_⟩
  intro raw h1 h2
  simp [hydrateNumericFields, h raw.dateOfBirth h1, h raw.expiresAt h2]

/-- Witness for C10: a non-numeric string DOB and a `null` expiry both
hydrate to `0`. -/
theorem safeUInt64_coerces_malformed_witness :
    hydrateNumericFields
      { dateOfBirth := .strVal "not-a-number", expiresAt := .jsNull } = .ok (0, 0) :=
  safeUInt64_coerces_malformed.2 _ rfl trivial

/-- C5: `issue`/`validateDocument` fails with a `ValidationError` exactly
when the fullName length is outside [2,128], `String(dateOfBirth)` or
`String(expiresAt)` is not exactly 8 decimal digits, the nationality
length is outside [2,64], or the documentType is not one of the three
allowed values; in particular a 6-digit DOB `240101` fails and
`20240101` with documentType `passport` succeeds. -/
theorem validateDocument_validation_iff :
    (∀ d : IdentityDocument,
      (∃ e, validateDocument d = .error e) ↔
        (d.fullName.length < 2 ∨ d.fullName.length > 128 ∨
         decLen d.dateOfBirth ≠ 8 ∨ decLen d.expiresAt ≠ 8 ∨
         d.nationality.length < 2 ∨ d.nationality.length > 64 ∨
         validTypes.contains d.documentType = false)) ∧
    validateDocument docSixDigitDOB = .error .invalidDateOfBirth ∧
    validateDocument docGood = .ok () := by
  refine ⟨?_, rfl, rfl⟩
  intro d
  unfold validateDocument
  split_ifs with h1 h2 h3 h4 h5 h6 h7 <;> simp_all

/-- C6: the `AgeVerificationSpec` assertion list is satisfied exactly when
`dateOfBirth + minAgeDelta ≤ currentDate` and `currentDate ≤ expiresAt`;
when the credential's age is below the minimum
(`dateOfBirth + minAgeDelta > currentDate`), presentation creation fails
with `ProofGenerationError`. -/
theorem ageVerification_spec_iff (cred : CredentialView) (cl : AgeClaims) :
    (ageSpecSatisfied cred cl = true ↔
      cred.dateOfBirth + cl.minAgeDelta ≤ cl.currentDate ∧
      cl.currentDate ≤ cred.expiresAt) ∧
    (cl.currentDate < cred.dateOfBirth + cl.minAgeDelta →
      createAgePresentation cred cl = .error .ProofGenerationError) := by
  have hiff : ageSpecSatisfied cred cl = true ↔
      cred.dateOfBirth + cl.minAgeDelta ≤ cl.currentDate ∧
      cl.currentDate ≤ cred.expiresAt := by
    simp [ageSpecSatisfied, ageVerificationAssertions, evalAssertion, evalNum]
  refine ⟨hiff, ?_⟩
  intro hlt
  have hfalse : ageSpecSatisfied cred cl = false := by
    cases hs : ageSpecSatisfied cred cl
    · rfl
    · exact absurd (hiff.mp hs).1 (by omega)
  simp [createAgePresentation, hfalse]

/-- Witness for C6: a holder born 2010-01-01 is below an 18-year minimum
on 2025-10-11, so proof creation fails. -/
theorem ageVerification_spec_iff_witness :
    createAgePresentation
      { dateOfBirth := 20100101, expiresAt := 20300101, issuerHash := 9 }
      { currentDate := 20251011, minAgeDelta := 180000 } =
      .error .ProofGenerationError :=
  (ageVerification_spec_iff _ _).2 (by decide)

/-- C3: for a user with an existing record, `revokeKYC` fails with
`AuthorizationError` when the sender differs from the stored admin, fails
with `NotActiveError` when the record is inactive, and on success appends
an update whose new record flips `isActive` to false while keeping the
commitment, issuerHash and registeredAt of the prior record. -/
theorem revokeKYC_frame (st : RegistryState) (sender user : Pub) (r : KYCRecord)
    (h : st.settled.kycRecords user = some r) :
    (sender ≠ st.admin → revokeKYC st sender user = .error .AuthorizationError) ∧
    (sender = st.admin → r.isActive = false →
      revokeKYC st sender user = .error .NotActiveError) ∧
    (sender = st.admin → r.isActive = true →
      revokeKYC st sender user = .ok { st with pending := st.pending ++
        [.update user (some r)
          { commitment := r.commitment, issuerHash := r.issuerHash,
            registeredAt := r.registeredAt, isActive := false }] }) := by
  refine ⟨?_, ?_, ?_⟩
  · intro hne
    simp [revokeKYC, hne]
  · intro he hia
    subst he
    simp [revokeKYC, h, hia]
  · intro he hia
    subst he
    simp [revokeKYC, h, hia]

/-- Witness for C3 on a registry where user `3` holds the active record
`recA` and the admin is key `5`: a non-admin revoke fails, an admin
revoke of user `3` succeeds and preserves every field but `isActive`. -/
theorem revokeKYC_frame_witness :
    revokeKYC stRegistered 4 3 = .error .AuthorizationError ∧
    revokeKYC stRegistered 5 3 = .ok { stRegistered with
      pending := stRegistered.pending ++
        [.update 3 (some recA)
          { commitment := recA.commitment, issuerHash := recA.issuerHash,
            registeredAt := recA.registeredAt, isActive := false }] } :=
  ⟨(revokeKYC_frame stRegistered 4 3 recA rfl).1 (by decide),
   (revokeKYC_frame stRegistered 5 3 recA rfl).2.2 rfl rfl⟩

/-- C4: `registerKYC` fails with `ZeroCommitmentError` whenever the
commitment or the issuer hash is the zero field element, appending
nothing; with both non-zero it succeeds, appending exactly one update
action whose record carries the submitted values with
`registeredAt` = current ledger height and `isActive` = true, plus the
conditional counter-increment action. -/
theorem registerKYC_zero_guard (st : RegistryState) (sender : Pub) (c i : F) :
    ((c = 0 ∨ i = 0) → registerKYC st sender c i = .error .ZeroCommitmentError) ∧
    (c ≠ 0 → i ≠ 0 →
      registerKYC st sender c i = .ok { st with pending := st.pending ++
        [ .update sender (st.settled.kycRecords sender)
            { commitment := c, issuerHash := i,
              registeredAt := st.blockchainLength, isActive := true },
          .increment st.settled.totalRegistrations
            (if ((st.settled.kycRecords sender).getD KYCRecord.empty).commitment = 0
             then st.settled.totalRegistrations.getD 0 + 1
             else st.settled.totalRegistrations.getD 0) ] }) := by
  constructor
  · intro hzero
    rcases hzero with hc | hi
    · simp [registerKYC, hc]
    · by_cases hc : c = 0 <;> simp [registerKYC, hc, hi]
  · intro hc hi
    simp [registerKYC, hc, hi]

/-- Witness for C4: on a fresh registry, a zero commitment is rejected,
and `registerKYC 11 22` appends the expected update and increment
actions. -/
theorem registerKYC_zero_guard_witness :
    registerKYC baseState 3 0 5 = .error .ZeroCommitmentError ∧
    registerKYC baseState 3 11 22 = .ok { baseState with pending :=
      baseState.pending ++
      [ .update 3 (baseState.settled.kycRecords 3)
          { commitment := 11, issuerHash := 22,
            registeredAt := baseState.blockchainLength, isActive := true },
        .increment baseState.settled.totalRegistrations
          (if ((baseState.settled.kycRecords 3).getD KYCRecord.empty).commitment = 0
           then baseState.settled.totalRegistrations.getD 0 + 1
           else baseState.settled.totalRegistrations.getD 0) ] } :=
  ⟨(registerKYC_zero_guard baseState 3 0 5).1 (Or.inl rfl),
   (registerKYC_zero_guard baseState 3 11 22).2 (by decide) (by decide)⟩

/-- C2: after a `registerKYC` action settles, `totalRegistrations` has
grown by exactly one when the acted-on key's prior commitment was zero
and is unchanged otherwise; and no other registry operation —
`setAdmin`, `transferOwnership`, or a settled `revokeKYC` — changes the
counter. -/
theorem registerKYC_total_counter (st : RegistryState) (sender : Pub) (c i : F)
    (hp : st.pending = []) (hc : c ≠ 0) (hi : i ≠ 0) :
    (∃ st₁ st₂, registerKYC st sender c i = .ok st₁ ∧ settle st₁ = .ok st₂ ∧
      st₂.settled.totalRegistrations =
        some (if ((st.settled.kycRecords sender).getD KYCRecord.empty).commitment = 0
              then st.settled.totalRegistrations.getD 0 + 1
              else st.settled.totalRegistrations.getD 0)) ∧
    (∀ a st', setAdmin st a = .ok st' →
      st'.settled.totalRegistrations = st.settled.totalRegistrations) ∧
    (∀ s a st', transferOwnership st s a = .ok st' →
      st'.settled.totalRegistrations = st.settled.totalRegistrations) ∧
    (∀ s u st₁ st₂, revokeKYC st s u = .ok st₁ → settle st₁ = .ok st₂ →
      st₂.settled.totalRegistrations = st.settled.totalRegistrations) := by
  refine ⟨?_, ?_, ?_, ?_⟩
  · refine ⟨{ st with pending := st.pending ++
        [ .update sender (st.settled.kycRecords sender)
            { commitment := c, issuerHash := i,
              registeredAt := st.blockchainLength, isActive := true },
          .increment st.settled.totalRegistrations
            (if ((st.settled.kycRecords sender).getD KYCRecord.empty).commitment = 0
             then st.settled.totalRegistrations.getD 0 + 1
             else st.settled.totalRegistrations.getD 0) ] },
      { st with
        settled :=
          { kycRecords := fun k => if k = sender then
              some { commitment := c, issuerHash := i,
                     registeredAt := st.blockchainLength, isActive := true }
              else st.settled.kycRecords k,
            totalRegistrations :=
              some (if ((st.settled.kycRecords sender).getD KYCRecord.empty).commitment = 0
                    then st.settled.totalRegistrations.getD 0 + 1
                    else st.settled.totalRegistrations.getD 0) },
        pending := [] }, ?_, ?_, rfl⟩
    · simp [registerKYC, hc, hi]
    · simp [settle, settleActions, applyAction, hp]
  · intro a st' h
    simp [setAdmin] at h
    subst h
    rfl
  · intro s a st' h
    unfold transferOwnership at h
    split at h
    · simp at h
    · simp at h
      subst h
      rfl
  · intro s u st₁ st₂ h1 h2
    unfold revokeKYC at h1
    split at h1
    · simp at h1
    · dsimp only at h1
      split at h1
      · simp at h1
      · rw [Except.ok.injEq] at h1
        subst h1
        simp [settle, settleActions, applyAction, hp] at h2
        subst h2
        rfl

/-- Witness for C2: registering user `3` on a fresh registry settles to a
counter of 1. -/
theorem registerKYC_total_counter_witness :
    ∃ st₁ st₂, registerKYC baseState 3 11 22 = .ok st₁ ∧ settle st₁ = .ok st₂ ∧
      st₂.settled.totalRegistrations = some 1 := by
  have h := (registerKYC_total_counter baseState 3 11 22 rfl (by decide) (by decide)).1
  simpa [baseState, emptyMaps] using h

/-- C7: round trip through the registry. For any non-zero commitment and
issuer hash, `register → settle → getRecord` yields a record with
`isActive` = true and the submitted commitment; a subsequent admin
`revoke → settle → getRecord` yields the same record with `isActive` =
false and commitment/registeredAt unchanged. -/
theorem register_settle_roundtrip (st : RegistryState) (u : Pub) (c i : F)
    (hp : st.pending = []) (hc : c ≠ 0) (hi : i ≠ 0) :
    ∃ st₁ st₂ st₃ st₄,
      registerKYC st u c i = .ok st₁ ∧ settle st₁ = .ok st₂ ∧
      getKYCStatus st₂ u =
        some { commitment := c, issuerHash := i,
               registeredAt := st.blockchainLength, isActive := true } ∧
      revokeKYC st₂ st.admin u = .ok st₃ ∧ settle st₃ = .ok st₄ ∧
      getKYCStatus st₄ u =
        some { commitment := c, issuerHash := i,
               registeredAt := st.blockchainLength, isActive := false } := by
  refine ⟨
    { st with pending := st.pending ++
        [ .update u (st.settled.kycRecords u)
            { commitment := c, issuerHash := i,
              registeredAt := st.blockchainLength, isActive := true },
          .increment st.settled.totalRegistrations
            (if ((st.settled.kycRecords u).getD KYCRecord.empty).commitment = 0
             then st.settled.totalRegistrations.getD 0 + 1
             else st.settled.totalRegistrations.getD 0) ] },
    { st with
      settled :=
        { kycRecords := fun k => if k = u then
            some { commitment := c, issuerHash := i,
                   registeredAt := st.blockchainLength, isActive := true }
            else st.settled.kycRecords k,
          totalRegistrations :=
            some (if ((st.settled.kycRecords u).getD KYCRecord.empty).commitment = 0
                  then st.settled.totalRegistrations.getD 0 + 1
                  else st.settled.totalRegistrations.getD 0) },
      pending := [] },
    { st with
      settled :=
        { kycRecords := fun k => if k = u then
            some { commitment := c, issuerHash := i,
                   registeredAt := st.blockchainLength, isActive := true }
            else st.settled.kycRecords k,
          totalRegistrations :=
            some (if ((st.settled.kycRecords u).getD KYCRecord.empty).commitment = 0
                  then st.settled.totalRegistrations.getD 0 + 1
                  else st.settled.totalRegistrations.getD 0) },
      pending :=
        [ .update u
            (some { commitment := c, issuerHash := i,
                    registeredAt := st.blockchainLength, isActive := true })
            { commitment := c, issuerHash := i,
              registeredAt := st.blockchainLength, isActive := false } ] },
    { st with
      settled :=
        { kycRecords := fun k => if k = u then
            some { commitment := c, issuerHash := i,
                   registeredAt := st.blockchainLength, isActive := false }
            else (if k = u then
              some { commitment := c, issuerHash := i,
                     registeredAt := st.blockchainLength, isActive := true }
              else st.settled.kycRecords k),
          totalRegistrations :=
            some (if ((st.settled.kycRecords u).getD KYCRecord.empty).commitment = 0
                  then st.settled.totalRegistrations.getD 0 + 1
                  else st.settled.totalRegistrations.getD 0) },
      pending := [] },
    ?_, ?_, ?_, ?_, ?_, ?_⟩
  · simp [registerKYC, hc, hi]
  · simp [settle, settleActions, applyAction, hp]
  · simp [getKYCStatus, hc]
  · simp [revokeKYC]
  · simp [settle, settleActions, applyAction]
  · simp [getKYCStatus, hc]

/-- Witness for C7: the full round trip for user `3` with commitment 11
and issuer hash 22 on a fresh registry administered by key `5`. -/
theorem register_settle_roundtrip_witness :
    ∃ st₁ st₂ st₃ st₄,
      registerKYC baseState 3 11 22 = .ok st₁ ∧ settle st₁ = .ok st₂ ∧
      getKYCStatus st₂ 3 =
        some { commitment := 11, issuerHash := 22,
               registeredAt := 42, isActive := true } ∧
      revokeKYC st₂ 5 3 = .ok st₃ ∧ settle st₃ = .ok st₄ ∧
      getKYCStatus st₄ 3 =
        some { commitment := 11, issuerHash := 22,
               registeredAt := 42, isActive := false } := by
  have h := register_settle_roundtrip baseState 3 11 22 rfl (by decide) (by decide)
  simpa [baseState] using h

end NoahMina
